import Mathlib

/-!
Verification of the pdfmcr annotation editor's TypeScript core (the
annotation geometry, data model and scene/model synchronization engine).

The development shallowly embeds the relevant source files:
  * `src/ts/src/common.ts`      — `positionFromTranslate`, `getImageHeightPt`
  * `src/unnamed/part_004`      — `pointsValue` (a revision of `serialize.ts`
                                  that carries the helper absent from the
                                  current `common.ts`)
  * `src/ts/src/model.ts`       — the persisted data model
  * `src/ts/src/annotations.ts` — `makeTSpanFromTextChunk`,
                                  `makeGroupFromAnnot`, the per-group
                                  drag state machine, and the `SvgDrag`
                                  viewport controller
  * `src/ts/src/serialize.ts`   — `serializeAnnot`, `serialize`, `doSave`

JavaScript numbers are modelled as exact rationals (every finite IEEE-754
double is a dyadic rational, so this is a faithful superset for the values
the program manipulates); `NaN`/`±Infinity` are modelled explicitly where
string-to-number coercion can produce them.  The DOM is modelled as an
inductive node tree carrying exactly the data the embedded functions read:
namespace, local name, class list, inline style, data attributes, the SVG
transform list, attachment to an SVG root, and child nodes.
-/

namespace Pdfmcr

/-- The SVG namespace constant (`common.ts`: `SVG_NS`). -/
def SVG_NS : String := "http://www.w3.org/2000/svg"

/-- `SVGLength` unit types used by the sources (`SVG_LENGTHTYPE_*`). -/
inductive LengthType where
  | number
  | pt
  | px
deriving DecidableEq, Repr

/-- An `SVGLength`: a value tagged with its current unit. -/
structure SvgLength where
  unit : LengthType
  value : ℚ
deriving DecidableEq, Repr

/-- SVG user units are CSS pixels; 96 px = 1 in = 72 pt, so 1 pt = 4/3 user
units.  `newValueSpecifiedUnits(NUMBER, v)` followed by
`convertToSpecifiedUnits(t)` yields this conversion of `v` to unit `t`. -/
def convertNumberTo (t : LengthType) (v : ℚ) : ℚ :=
  match t with
  | .number => v
  | .px => v
  | .pt => v * 3 / 4

/-- `newValueSpecifiedUnits(PT, v)` followed by
`convertToSpecifiedUnits(NUMBER)`: points to user units. -/
def convertPtToNumber (v : ℚ) : ℚ := v * 4 / 3

/-- `SVGLength.convertToSpecifiedUnits(PT)` from an arbitrary stored unit. -/
def SvgLength.valueInPt (l : SvgLength) : ℚ :=
  match l.unit with
  | .pt => l.value
  | .number => l.value * 3 / 4
  | .px => l.value * 3 / 4

/-- An entry of an element's `transform.baseVal` list.  The constructor
records how the transform was created, mirroring `SVGTransform.type`
(`SVG_TRANSFORM_TRANSLATE`, `_SCALE`, `_ROTATE`, `_SKEWX`, `_SKEWY`,
`_MATRIX`). -/
inductive SvgTransform where
  | translate (tx ty : ℚ)
  | scale (sx sy : ℚ)
  | rotate (angle cx cy : ℚ)
  | skewX (angle : ℚ)
  | skewY (angle : ℚ)
  | matrix (a b c d e f : ℚ)
deriving DecidableEq, Repr

/-- `SVGTransform.type === SVG_TRANSFORM_TRANSLATE`. -/
def SvgTransform.isTranslateType : SvgTransform → Bool
  | .translate _ _ => true
  | _ => false

/-- The `e` (= `m41`) entry of the transform's matrix.  The sources only read
it after checking the type is `TRANSLATE`; for the other constructors we
return the honest matrix entry (0 except for `matrix`). -/
def SvgTransform.matrixE : SvgTransform → ℚ
  | .translate tx _ => tx
  | .matrix _ _ _ _ e _ => e
  | _ => 0

/-- The `f` (= `m42`) entry of the transform's matrix. -/
def SvgTransform.matrixF : SvgTransform → ℚ
  | .translate _ ty => ty
  | .matrix _ _ _ _ _ f => f
  | _ => 0

/-- A 2D position (`common.ts`: `Position`). -/
structure Position where
  x : ℚ
  y : ℚ
deriving DecidableEq, Repr

/-- The inline CSS style of an element; only the properties the embedded
code reads or writes.  An unset property reads as the empty string, exactly
as `element.style.foo` does in the DOM. -/
structure CssStyle where
  fontSize : String := ""
  lineHeight : String := ""
  letterSpacing : String := ""
  wordSpacing : String := ""
  fontWeight : String := ""
  fontStyle : String := ""
  whiteSpace : String := ""
  fill : String := ""
  fillOpacity : String := ""
deriving DecidableEq, Repr

/-- The element-specific data of a DOM node (children are kept in the node
tree itself).  `hasOwnerSvg` models whether `ownerSVGElement` is non-null,
and `height` models the `SVGAnimatedLength` `height.baseVal` of `image`
elements. -/
structure ElemData where
  namespaceURI : Option String := some SVG_NS
  localName : String
  classList : List String := []
  style : CssStyle := {}
  attrs : List (String × String) := []
  transforms : List SvgTransform := []
  hasOwnerSvg : Bool := true
  height : SvgLength := ⟨LengthType.number, 0⟩
deriving DecidableEq, Repr

/-- A DOM node: an element, a text node, or a comment node. -/
inductive DomNode where
  | element (data : ElemData) (childNodes : List DomNode)
  | text (content : String)
  | comment (content : String)

/-- `Node.nodeType` discriminants used by the sources. -/
inductive NodeType where
  | elementNode
  | textNode
  | commentNode
deriving DecidableEq, Repr

def DomNode.nodeType : DomNode → NodeType
  | .element _ _ => .elementNode
  | .text _ => .textNode
  | .comment _ => .commentNode

mutual
/-- The concatenated character data of the text-node descendants of a node
(comments contribute nothing), as in the DOM's `textContent` for elements. -/
def DomNode.innerText : DomNode → String
  | .text s => s
  | .comment _ => ""
  | .element _ kids => DomNode.innerTextList kids

def DomNode.innerTextList : List DomNode → String
  | [] => ""
  | k :: ks => DomNode.innerText k ++ DomNode.innerTextList ks
end

/-- `Node.textContent` (`null` only for node kinds we do not model, so for
element, text and comment nodes it is always present). -/
def DomNode.textContentOpt : DomNode → Option String
  | .text s => some s
  | .comment s => some s
  | .element _ kids => some (DomNode.innerTextList kids)

def DomNode.namespaceURI : DomNode → Option String
  | .element d _ => d.namespaceURI
  | _ => none

def DomNode.localName : DomNode → String
  | .element d _ => d.localName
  | _ => ""

def DomNode.classList : DomNode → List String
  | .element d _ => d.classList
  | _ => []

def DomNode.styleOf : DomNode → CssStyle
  | .element d _ => d.style
  | _ => {}

def DomNode.transforms : DomNode → List SvgTransform
  | .element d _ => d.transforms
  | _ => []

def DomNode.hasOwnerSvg : DomNode → Bool
  | .element d _ => d.hasOwnerSvg
  | _ => false

def DomNode.heightLen : DomNode → SvgLength
  | .element d _ => d.height
  | _ => ⟨LengthType.number, 0⟩

/-- `Node.childNodes`. -/
def DomNode.childNodes : DomNode → List DomNode
  | .element _ kids => kids
  | _ => []

/-- `Element.children`: the element children only, in order. -/
def DomNode.children (n : DomNode) : List DomNode :=
  n.childNodes.filter (fun c => c.nodeType = NodeType.elementNode)

/-- `Element.getAttribute`: `null` when the attribute is absent. -/
def DomNode.getAttribute (n : DomNode) (name : String) : Option String :=
  match n with
  | .element d _ => (d.attrs.find? (fun p => p.1 = name)).map Prod.snd
  | _ => none

mutual
/-- Document-order collection of `node` and its descendant elements matching
namespace `ns` and local name `name` (the node itself first). -/
def DomNode.collectByTagNS (ns name : String) : DomNode → List DomNode
  | .text _ => []
  | .comment _ => []
  | .element d kids =>
      (if d.namespaceURI = some ns ∧ d.localName = name
        then [DomNode.element d kids] else [])
        ++ DomNode.collectByTagNSList ns name kids

def DomNode.collectByTagNSList (ns name : String) : List DomNode → List DomNode
  | [] => []
  | k :: ks => DomNode.collectByTagNS ns name k ++ DomNode.collectByTagNSList ns name ks
end

/-- `Element.getElementsByTagNameNS(ns, name)`: the matching *descendants*
of `n`, in document order. -/
def DomNode.getElementsByTagNameNS (n : DomNode) (ns name : String) : List DomNode :=
  DomNode.collectByTagNSList ns name n.childNodes

/-! ## JavaScript numbers

Finite doubles are modelled as exact rationals; `NaN` and the infinities are
explicit constructors because the string-to-number coercion in
`pointsValue` can produce them. -/

/-- A JavaScript number. -/
inductive JsNum where
  | num (q : ℚ)
  | nan
  | inf
  | negInf
deriving DecidableEq, Repr

/-- `Math.round`: round half towards positive infinity; `NaN` and the
infinities pass through unchanged. -/
def jsRound : JsNum → JsNum
  | .num q => .num ⌊q + 1/2⌋
  | .nan => .nan
  | .inf => .inf
  | .negInf => .negInf

/-- JavaScript subtraction on numbers (only the cases that can arise here;
any operation involving `NaN`, and `∞ - ∞`, is `NaN`). -/
def JsNum.sub : JsNum → JsNum → JsNum
  | .num a, .num b => .num (a - b)
  | .nan, _ => .nan
  | _, .nan => .nan
  | .inf, .inf => .nan
  | .negInf, .negInf => .nan
  | .inf, _ => .inf
  | .negInf, _ => .negInf
  | .num _, .inf => .negInf
  | .num _, .negInf => .inf

/-- Whether a JavaScript number is a finite integer. -/
def JsNum.isInt : JsNum → Bool
  | .num q => q.den == 1
  | _ => false

/-- The characters trimmed by JavaScript's string-to-number coercion
(`StrWhiteSpace`): ASCII whitespace, line terminators and NBSP. -/
def jsIsWhite (c : Char) : Bool :=
  c = ' ' ∨ c = '\t' ∨ c = '\n' ∨ c = '\r' ∨
  c = '\x0b' ∨ c = '\x0c' ∨ c = ' '

/-- The numeric value of a string of decimal digits. -/
def natOfDigits (ds : List Char) : ℕ :=
  ds.foldl (fun a c => a * 10 + (c.toNat - 48)) 0

/-- Split off the longest leading run of decimal digits. -/
def takeDigits (cs : List Char) : List Char × List Char :=
  match cs with
  | [] => ([], [])
  | c :: rest =>
      if c.isDigit then
        let (ds, r) := takeDigits rest
        (c :: ds, r)
      else ([], cs)

/-- Parse the exponent part of a decimal literal (if any) after mantissa
`m`, requiring the rest of the input to be consumed. -/
def parseExponentEnd (m : ℚ) (cs : List Char) : Option ℚ :=
  match cs with
  | [] => some m
  | c :: rest =>
      if c = 'e' ∨ c = 'E' then
        let (sign, body) :=
          match rest with
          | '+' :: r => ((1 : ℤ), r)
          | '-' :: r => ((-1 : ℤ), r)
          | r => ((1 : ℤ), r)
        let (ds, r) := takeDigits body
        if ds.isEmpty ∨ ¬r.isEmpty then none
        else some (m * (10 : ℚ) ^ (sign * (natOfDigits ds : ℤ)))
      else none

/-- Parse an unsigned `StrUnsignedDecimalLiteral` body (digits with optional
fraction and exponent), requiring the whole input to be consumed. -/
def parseDecimalBody (cs : List Char) : Option ℚ :=
  let (ip, r1) := takeDigits cs
  match r1 with
  | '.' :: r2 =>
      let (fp, r3) := takeDigits r2
      if ip.isEmpty ∧ fp.isEmpty then none
      else
        parseExponentEnd
          ((natOfDigits ip : ℚ) + (natOfDigits fp : ℚ) / (10 : ℚ) ^ fp.length) r3
  | _ =>
      if ip.isEmpty then none else parseExponentEnd (natOfDigits ip : ℚ) r1

/-- The numeric value of a string of digits in base `b` (hex digits in
either case), `none` on an invalid digit. -/
def natOfRadixDigits (b : ℕ) (ds : List Char) : Option ℕ :=
  ds.foldlM
    (fun a c =>
      let v :=
        if c.isDigit then c.toNat - 48
        else if 'a' ≤ c ∧ c ≤ 'f' then c.toNat - 97 + 10
        else if 'A' ≤ c ∧ c ≤ 'F' then c.toNat - 65 + 10
        else 99
      if v < b then some (a * b + v) else none)
    0

/-- Parse an unsigned decimal literal or `Infinity`. -/
def parseDecOrInfinity (cs : List Char) : Option JsNum :=
  if cs = "Infinity".data then some JsNum.inf
  else (parseDecimalBody cs).map JsNum.num

/-- JavaScript's string-to-number coercion (the unary `+` applied to a
string): trimmed empty string is `0`; a signed decimal literal or
`Infinity`; an unsigned `0x`/`0o`/`0b` radix literal; anything else is
`NaN`. -/
def jsStringToNumber (s : String) : JsNum :=
  let cs := ((s.data.dropWhile jsIsWhite).reverse.dropWhile jsIsWhite).reverse
  match cs with
  | [] => JsNum.num 0
  | '+' :: r => (parseDecOrInfinity r).getD JsNum.nan
  | '-' :: r =>
      match parseDecOrInfinity r with
      | some (JsNum.num q) => JsNum.num (-q)
      | some JsNum.inf => JsNum.negInf
      | _ => JsNum.nan
  | '0' :: x :: r =>
      if x = 'x' ∨ x = 'X' then
        match natOfRadixDigits 16 r with
        | some n => if r.isEmpty then JsNum.nan else JsNum.num n
        | none => JsNum.nan
      else if x = 'o' ∨ x = 'O' then
        match natOfRadixDigits 8 r with
        | some n => if r.isEmpty then JsNum.nan else JsNum.num n
        | none => JsNum.nan
      else if x = 'b' ∨ x = 'B' then
        match natOfRadixDigits 2 r with
        | some n => if r.isEmpty then JsNum.nan else JsNum.num n
        | none => JsNum.nan
      else (parseDecOrInfinity cs).getD JsNum.nan
  | _ => (parseDecOrInfinity cs).getD JsNum.nan

/-- `stringValue.endsWith("pt")` together with
`stringValue.substring(0, stringValue.length - 2)`: when the last two
characters are `'p','t'`, the characters before them. -/
def splitPtSuffix (cs : List Char) : Option (List Char) :=
  match cs.reverse with
  | c1 :: c2 :: bodyRev =>
      if c1 = 't' ∧ c2 = 'p' then some bodyRev.reverse else none
  | _ => none

/-- `pointsValue` (`src/unnamed/part_004`, lines 254-260): strip a literal
`"pt"` suffix and coerce the prefix to a number JavaScript-style; `null`
when the suffix is anything else.  Note the coercion of a non-numeric
prefix yields `NaN`, not `null`. -/
def pointsValue (stringValue : String) : Option JsNum :=
  match splitPtSuffix stringValue.data with
  | some body => some (jsStringToNumber (String.mk body))
  | none => none

/-- The smallest exponent `k ≤ 1100` with `d ∣ 10 ^ k` (every
denominator of a finite double divides `10 ^ 1074`). -/
def pow10Exponent (d : ℕ) : Option ℕ :=
  (List.range 1101).find? (fun k => d ∣ 10 ^ k)

/-- JavaScript's number-to-string conversion (template literals such as
`` `${x}pt` ``), for the plain-decimal regime the program works in:
integers print without a fraction, other finite-decimal rationals print
with their shortest decimal expansion.  (Values needing exponent notation,
which cannot arise from the page's geometry, fall back to a fraction
rendering.) -/
def jsNumToString (q : ℚ) : String :=
  if q.den = 1 then toString q.num
  else
    match pow10Exponent q.den with
    | some k =>
        let m := q.num.natAbs * (10 ^ k / q.den)
        let frac := Nat.toDigits 10 (m % 10 ^ k)
        let pad := String.mk (List.replicate (k - frac.length) '0') ++ String.mk frac
        (if q.num < 0 then "-" else "") ++ toString (m / 10 ^ k) ++ "." ++ pad
    | none => toString q.num ++ "/" ++ toString q.den

/-! ## The persisted data model (`src/ts/src/model.ts`) -/

/-- `FontVariant` (`model.ts`). -/
inductive FontVariant where
  | Regular
  | Italic
  | Bold
  | BoldItalic
deriving DecidableEq, Repr

/-- `TextChunk` (`model.ts`): one styled run of an annotation's label. -/
structure TextChunk where
  text : String
  font_variant : FontVariant
  character_spacing : ℚ
  word_spacing : ℚ
  language : Option String
  alternate_text : Option String
  actual_text : Option String
  expansion : Option String
deriving DecidableEq, Repr

/-- `Annot` (`model.ts`). -/
structure Annot where
  left : ℚ
  bottom : ℚ
  font_size : ℚ
  leading : ℚ
  elements : List TextChunk
deriving DecidableEq, Repr

/-- `ArtifactKind` (`model.ts`). -/
inductive ArtifactKind where
  | Pagination
  | Page
  | Layout
  | Background
deriving DecidableEq, Repr

/-- `Artifact` (`model.ts`). -/
structure Artifact where
  kind : ArtifactKind
  annot : Annot
deriving DecidableEq, Repr

/-- `PageAnnotations` (`model.ts`). -/
structure PageAnnotations where
  annotations : List Annot
  artifacts : List Artifact
deriving DecidableEq, Repr

/-! ## The objects `Serialize.serialize` actually constructs

`serialize.ts` builds annotation objects of the shape `{left, bottom,
elements}` and pushes `font_size`/`leading` onto each element — the shape of
the *older* model in `src/unnamed/part_002`, not of the current
`model.ts` (where `font_size`/`leading` live on the annotation and the
chunks have no such fields).  The embedding keeps the runtime shape the
serializer really produces. -/

/-- A text-chunk object as pushed by `serializeAnnot`
(`serialize.ts`, lines 77-88). -/
structure SerTextChunk where
  text : String
  font_variant : FontVariant
  font_size : JsNum
  character_spacing : JsNum
  word_spacing : JsNum
  leading : JsNum
  language : Option String
  alternate_text : Option String
  actual_text : Option String
  expansion : Option String
deriving DecidableEq, Repr

/-- An annotation object as returned by `serializeAnnot`
(`serialize.ts`, lines 91-95). -/
structure SerAnnot where
  left : ℚ
  bottom : ℚ
  elements : List SerTextChunk
deriving DecidableEq, Repr

structure SerArtifact where
  kind : ArtifactKind
  annot : SerAnnot
deriving DecidableEq, Repr

/-- The full result of `Serialize.serialize`. -/
structure SerPageAnnotations where
  annotations : List SerAnnot
  artifacts : List SerArtifact
deriving DecidableEq, Repr

/-! ## Geometry helpers (`src/ts/src/common.ts`) -/

/-- `positionFromTranslate` (`common.ts`, lines 8-54): `null` when the
element has no owning SVG root, when the transform stack does not have
exactly one entry, or when that entry's type is not
`SVG_TRANSFORM_TRANSLATE`; otherwise the translation components converted
from user units to `svgLengthType`. -/
def positionFromTranslate (element : DomNode) (svgLengthType : LengthType) :
    Option Position :=
  if !element.hasOwnerSvg then none
  else
    match element.transforms with
    | [xform0] =>
        if xform0.isTranslateType then
          some ⟨convertNumberTo svgLengthType xform0.matrixE,
                convertNumberTo svgLengthType xform0.matrixF⟩
        else none
    | _ => none

/-- `getImageHeightPt` (`common.ts`, lines 56-72): the height of the first
`image` element child of the page group, converted to points. -/
def getImageHeightPt (pageGroup : DomNode) : Option ℚ :=
  match pageGroup.children.find?
      (fun c => c.namespaceURI == some SVG_NS && c.localName == "image") with
  | none => none
  | some image => some image.heightLen.valueInPt

/-- `Math.round` on a plain (finite) number. -/
def roundHalfUp (q : ℚ) : ℚ := ⌊q + 1/2⌋

/-! ## Scene construction (`src/ts/src/annotations.ts`) -/

/-- The optional `data-*` attributes set by `makeTSpanFromTextChunk`
(`annotations.ts`, lines 138-149), in source order.  Note the names:
`data-language` and `data-alternate-text` — while the serializer and the
text-edit form read `data-lang` and `data-alt-text`. -/
def tspanAttrs (textChunk : TextChunk) : List (String × String) :=
  (match textChunk.language with
   | some l => [("data-language", l)]
   | none => []) ++
  (match textChunk.alternate_text with
   | some a => [("data-alternate-text", a)]
   | none => []) ++
  (match textChunk.actual_text with
   | some a => [("data-actual-text", a)]
   | none => []) ++
  (match textChunk.expansion with
   | some e => [("data-expansion", e)]
   | none => [])

/-- `makeTSpanFromTextChunk` (`annotations.ts`, lines 131-155): builds the
`tspan` for one text chunk.  Only `letter-spacing`, `word-spacing` and
`white-space` are set on its style — in particular no font size, line
height, font weight or font style — and the chunk's text becomes its sole
child text node.  (The source also appends the tspan to the given text
element; the tree is assembled in `makeGroupFromAnnot` below.) -/
def makeTSpanFromTextChunk (textChunk : TextChunk) : DomNode :=
  DomNode.element
    { namespaceURI := some SVG_NS
      localName := "tspan"
      style := { letterSpacing := jsNumToString textChunk.character_spacing ++ "pt"
                 wordSpacing := jsNumToString textChunk.word_spacing ++ "pt"
                 whiteSpace := "pre" }
      attrs := tspanAttrs textChunk
      hasOwnerSvg := true }
    [DomNode.text textChunk.text]

/-- `makeGroupFromAnnot` (`annotations.ts`, lines 157-205): `null` when
the page group has no owning SVG root; otherwise the `g.annotation` element
positioned by a single translation at the pixel equivalent of
`(left, pageHeightPt - bottom)`, containing the styled `text` element with
one tspan per chunk, and the grab `rect`.  (The grab rectangle's geometry
attributes and event listener are irrelevant to serialization and are not
modelled; it participates as a non-text element child.) -/
def makeGroupFromAnnot (pageGroup : DomNode) (pageHeightPt : ℚ)
    (annot : Annot) : Option DomNode :=
  if !pageGroup.hasOwnerSvg then none
  else
    let xPx := convertPtToNumber annot.left
    let yPx := convertPtToNumber (pageHeightPt - annot.bottom)
    let lineHeight := annot.font_size + annot.leading
    let annoTextElem : DomNode :=
      DomNode.element
        { namespaceURI := some SVG_NS
          localName := "text"
          style := { fill := "#000"
                     fontSize := jsNumToString annot.font_size ++ "pt"
                     lineHeight := jsNumToString lineHeight ++ "pt" }
          hasOwnerSvg := true }
        (annot.elements.map makeTSpanFromTextChunk)
    let grabRect : DomNode :=
      DomNode.element
        { namespaceURI := some SVG_NS
          localName := "rect"
          style := { fill := "#fff", fillOpacity := "0.5" }
          hasOwnerSvg := true }
        []
    some (DomNode.element
      { namespaceURI := some SVG_NS
        localName := "g"
        classList := ["annotation"]
        transforms := [SvgTransform.translate xPx yPx]
        hasOwnerSvg := true }
      [annoTextElem, grabRect])

/-- Append a child element (`Node.appendChild`). -/
def DomNode.appendChild (n : DomNode) (c : DomNode) : DomNode :=
  match n with
  | .element d kids => .element d (kids ++ [c])
  | other => other

/-- `realizeExistingAnnotations` (`annotations.ts`, lines 239-253): look up
the page image's height and instantiate one visual group per annotation of
the loaded model (artifacts are not instantiated by the source), appending
each to the page group. -/
def realizeExistingAnnotations (pageGroup : DomNode)
    (existingAnnotations : PageAnnotations) : DomNode :=
  match getImageHeightPt pageGroup with
  | none => pageGroup
  | some imageHeightPt =>
      existingAnnotations.annotations.foldl
        (fun g a =>
          match makeGroupFromAnnot g imageHeightPt a with
          | some grp => g.appendChild grp
          | none => g)
        pageGroup

/-- The initial page group of the server-rendered page
(`src/pdfmcr/templates/page.html`): an SVG `g` holding the scanned page
image, whose height attribute is given in points. -/
def initialPageGroup (pageHeightPt : ℚ) : DomNode :=
  DomNode.element
    { namespaceURI := some SVG_NS
      localName := "g"
      hasOwnerSvg := true }
    [DomNode.element
      { namespaceURI := some SVG_NS
        localName := "image"
        height := ⟨LengthType.pt, pageHeightPt⟩
        hasOwnerSvg := true }
      []]

/-- Loading a page: the server-rendered page group with every annotation of
the persisted model instantiated into it (the spec's `fromModel`). -/
def realizePage (pageHeightPt : ℚ) (pa : PageAnnotations) : DomNode :=
  realizeExistingAnnotations (initialPageGroup pageHeightPt) pa

/-! ## The serialization engine (`src/ts/src/serialize.ts`) -/

/-- The font-variant computation of `serializeAnnot` (`serialize.ts`,
lines 68-70): `isBold ? (isItalic ? "BoldItalic" : "Bold") : (isItalic ?
"Italic" : "Regular")`. -/
def variantOfFlags (isBold isItalic : Bool) : FontVariant :=
  if isBold then (if isItalic then .BoldItalic else .Bold)
  else (if isItalic then .Italic else .Regular)

/-- The per-run loop of `serializeAnnot` (`serialize.ts`, lines
24-89) over the element children of the first `text` element: a non-SVG or
non-`tspan` child is skipped, a run with any unparsable length style is
skipped (`continue`), and a run whose child-node list is not exactly one
text node aborts the whole annotation (`return null`). -/
def serializeChunks : List DomNode → Option (List SerTextChunk)
  | [] => some []
  | rawChild :: rest =>
      if rawChild.namespaceURI ≠ some SVG_NS then serializeChunks rest
      else if rawChild.localName ≠ "tspan" then serializeChunks rest
      else
        -- the source's locals `fontSizePt`, `characterSpacingPt`,
        -- `wordSpacingPt`, `lineHeightPt` and the four
        -- `if (... === null) continue;` checks
        match pointsValue rawChild.styleOf.fontSize,
            pointsValue rawChild.styleOf.letterSpacing,
            pointsValue rawChild.styleOf.wordSpacing,
            pointsValue rawChild.styleOf.lineHeight with
        | some fontSize, some characterSpacing, some wordSpacing,
            some lineHeight =>
            match rawChild.childNodes with
            | [only] =>
                if only.nodeType ≠ NodeType.textNode then none
                else
                  match only.textContentOpt with
                  | none => none
                  | some text =>
                      (serializeChunks rest).map (fun tail =>
                        { text := text
                          font_variant := variantOfFlags
                            (rawChild.styleOf.fontWeight == "bold")
                            (rawChild.styleOf.fontStyle == "italic")
                          font_size := jsRound fontSize
                          character_spacing := jsRound characterSpacing
                          word_spacing := jsRound wordSpacing
                          leading := jsRound (lineHeight.sub fontSize)
                          language := rawChild.getAttribute "data-lang"
                          alternate_text := rawChild.getAttribute "data-alt-text"
                          actual_text := rawChild.getAttribute "data-actual-text"
                          expansion := rawChild.getAttribute "data-expansion" }
                        :: tail)
            | _ => none  -- `children.length !== 1`
        | _, _, _, _ => serializeChunks rest

/-- `serializeAnnot` (`serialize.ts`, lines 7-96). -/
def serializeAnnot (annotationGroup : DomNode) (imageHeightPt : ℚ) :
    Option SerAnnot :=
  if !annotationGroup.hasOwnerSvg then none
  else
    match positionFromTranslate annotationGroup LengthType.pt with
    | none => none
    | some pos =>
        match annotationGroup.getElementsByTagNameNS SVG_NS "text" with
        | [] => none
        | textChild :: _ =>
            (serializeChunks textChild.children).map (fun elements =>
              { left := roundHalfUp pos.x
                bottom := roundHalfUp (imageHeightPt - pos.y)
                elements := elements })

/-- The artifact-kind classification of `serialize` (`serialize.ts`, lines
129-140). -/
def artifactKindOf (gChild : DomNode) : Option ArtifactKind :=
  if gChild.classList.contains "background" then some .Background
  else if gChild.classList.contains "layout" then some .Layout
  else if gChild.classList.contains "page" then some .Page
  else if gChild.classList.contains "pagination" then some .Pagination
  else none

/-- The child loop of `serialize` (`serialize.ts`, lines 106-151). -/
def serializeGroups (imageHeightPt : Option ℚ) :
    List DomNode → SerPageAnnotations
  | [] => ⟨[], []⟩
  | child :: rest =>
      -- the source accumulates into `ret` while looping; here the result of
      -- the remaining children is computed recursively and the current
      -- child's entity, when accepted, is prepended, which yields the same
      -- scene-order lists
      if child.namespaceURI ≠ some SVG_NS then serializeGroups imageHeightPt rest
      else if child.localName = "g" then
        if child.classList.contains "annotation" then
          match imageHeightPt with
          | none => serializeGroups imageHeightPt rest
          | some h =>
              match serializeAnnot child h with
              | none => serializeGroups imageHeightPt rest
              | some a =>
                  ⟨a :: (serializeGroups imageHeightPt rest).annotations,
                   (serializeGroups imageHeightPt rest).artifacts⟩
        else if child.classList.contains "artifact" then
          match imageHeightPt with
          | none => serializeGroups imageHeightPt rest
          | some h =>
              match artifactKindOf child with
              | none => serializeGroups imageHeightPt rest
              | some kind =>
                  match serializeAnnot child h with
                  | none => serializeGroups imageHeightPt rest
                  | some a =>
                      ⟨(serializeGroups imageHeightPt rest).annotations,
                       ⟨kind, a⟩ ::
                         (serializeGroups imageHeightPt rest).artifacts⟩
        else serializeGroups imageHeightPt rest
      else serializeGroups imageHeightPt rest

namespace Serialize

/-- `Serialize.serialize` (`serialize.ts`, lines 98-154): the spec's
`toModel`. -/
def serialize (pageGroup : DomNode) : SerPageAnnotations :=
  serializeGroups (getImageHeightPt pageGroup) pageGroup.children

end Serialize

/-! ## The save round-trip (`serialize.ts`, `doSave`, lines 156-199) -/

/-- What `fetch` of the POST to `/page/<n>/annotations` yields: a settled
response (with its HTTP status and body), or a transport failure. -/
inductive FetchOutcome where
  | response (status : ℕ) (bodyText : String)
  | transportError (message : String)
deriving DecidableEq, Repr

/-- The environment `doSave` runs against: whether the page group and the
page-number meta element exist in the document, and how the save request
settles. -/
structure SaveEnv where
  pageGroupElem : Option DomNode
  pageNumberMeta : Option String
  outcome : FetchOutcome

/-- `doSave` (`serialize.ts`, lines 156-199), as the list of alerts it
shows, in order.  `success` starts `false` and is set only on a 200
status; `"saved!"` is alerted exactly when `success` ends up `true`.  In
the non-200 branch the source concatenates the *unawaited* promise
`response.text()` into the message, which stringifies as
`[object Promise]`. -/
def doSave (env : SaveEnv) : List String :=
  match env.pageGroupElem with
  | none => ["cannot save: page group not found"]
  | some _ =>
      match env.pageNumberMeta with
      | none => ["cannot save: page number meta element not found"]
      | some _ =>
          match env.outcome with
          | .response status _ =>
              if status ≠ 200 then ["cannot save: [object Promise]"]
              else ["saved!"]
          | .transportError e => ["cannot save: " ++ e]

/-! ## The per-group drag state machine (`annotations.ts`, lines 7-104) -/

/-- The fields of a `MouseEvent` the embedded handlers read. -/
structure MouseEvent where
  button : ℕ
  clientX : ℚ
  clientY : ℚ
  offsetX : ℚ
  offsetY : ℚ
deriving DecidableEq, Repr

/-- The module-level drag state of the `Annotations` namespace together
with the visual state it mutates: `dragStart`, the view scale it reads
(`SvgDrag.currentImageScale`), and the annotation group being dragged. -/
structure AnnoDragState where
  dragStart : Option Position
  scale : ℚ
  annotationGroup : DomNode

/-- Replace an element's `transform.baseVal` (the
`initialize(transform)` call). -/
def DomNode.withTransforms (n : DomNode) (ts : List SvgTransform) : DomNode :=
  match n with
  | .element d kids => .element { d with transforms := ts } kids
  | other => other

/-- `setGroupPos` (`annotations.ts`, lines 11-29): no-op returning `null`
when no drag is active or the group is detached; otherwise replaces the
group's transform with the single translation
`((clientX-dragStart.x)/scale, (clientY-dragStart.y)/scale)`.  The `Bool`
records whether the source returned the (non-null) SVG root. -/
def setGroupPos (st : AnnoDragState) (clientX clientY : ℚ) :
    AnnoDragState × Bool :=
  match st.dragStart with
  | none => (st, false)
  | some ds =>
      if !st.annotationGroup.hasOwnerSvg then (st, false)
      else
        let translated :=
          st.annotationGroup.withTransforms
            [SvgTransform.translate ((clientX - ds.x) / st.scale)
              ((clientY - ds.y) / st.scale)]
        ({ st with annotationGroup := translated }, true)

/-- `rectMoved` (`annotations.ts`, lines 31-33). -/
def rectMoved (st : AnnoDragState) (event : MouseEvent) : AnnoDragState :=
  (setGroupPos st event.clientX event.clientY).1

/-- `rectReleased` (`annotations.ts`, lines 35-54): ignores non-primary
buttons; otherwise repositions once more, tears the drag listeners down
(not modelled beyond the state) and clears `dragStart`. -/
def rectReleased (st : AnnoDragState) (event : MouseEvent) : AnnoDragState :=
  if event.button ≠ 0 then st
  else
    match setGroupPos st event.clientX event.clientY with
    | (st1, false) => st1
    | (st1, true) => { st1 with dragStart := none }

/-- `rectGrabbed` (`annotations.ts`, lines 56-104): ignores non-primary
buttons; otherwise (selection highlighting and the text-form notification
are visual side effects not modelled here) reads the group's current
translation in user units and arms `dragStart` so that subsequent moves
keep the grab point fixed under the pointer at the current scale. -/
def rectGrabbed (st : AnnoDragState) (event : MouseEvent) : AnnoDragState :=
  if event.button ≠ 0 then st
  else if !st.annotationGroup.hasOwnerSvg then st
  else
    match positionFromTranslate st.annotationGroup LengthType.number with
    | none => st
    | some curPos =>
        let ds : Position :=
          ⟨event.offsetX - curPos.x * st.scale,
            event.offsetY - curPos.y * st.scale⟩
        { st with dragStart := some ds }

/-! ## The viewport controller (`annotations.ts`, `SvgDrag`, lines
274-404; the revision with zoom support) -/

/-- The module-level state of the `SvgDrag` namespace plus the page group
element whose transform it maintains. -/
structure SvgDragState where
  dragStart : Option Position
  currentImageScale : ℚ
  currentImageOffset : Position
  groupElem : DomNode

/-- `updateGroupTransform` (`annotations.ts`, lines 280-292): silent no-op
when the group is detached; otherwise re-initializes the transform list to
`[scale, translate]`. -/
def updateGroupTransform (st : SvgDragState) : SvgDragState :=
  if !st.groupElem.hasOwnerSvg then st
  else
    let transformed :=
      st.groupElem.withTransforms
        [SvgTransform.scale st.currentImageScale st.currentImageScale,
          SvgTransform.translate st.currentImageOffset.x st.currentImageOffset.y]
    { st with groupElem := transformed }

/-- `resetView` (`annotations.ts`, lines 294-301). -/
def resetView (st : SvgDragState) : SvgDragState :=
  updateGroupTransform
    { st with currentImageOffset := ⟨0, 0⟩, currentImageScale := 1 }

/-- `performZoom` (`annotations.ts`, lines 303-306). -/
def performZoom (st : SvgDragState) (factor : ℚ) : SvgDragState :=
  updateGroupTransform
    { st with currentImageScale := st.currentImageScale * factor }

/-- `groupDragOver` (`annotations.ts`, lines 308-321). -/
def groupDragOver (st : SvgDragState) (overEvent : MouseEvent) : SvgDragState :=
  match st.dragStart with
  | none => st
  | some ds =>
      updateGroupTransform
        { st with currentImageOffset :=
            ⟨(overEvent.clientX - ds.x) / st.currentImageScale,
             (overEvent.clientY - ds.y) / st.currentImageScale⟩ }

/-- `groupDragEnd` (`annotations.ts`, lines 323-355): only a primary-button
release during an active drag on an attached group commits the offset,
clears `dragStart` and tears down the listeners. -/
def groupDragEnd (st : SvgDragState) (endEvent : MouseEvent) : SvgDragState :=
  if endEvent.button ≠ 0 then st
  else
    match st.dragStart with
    | none => st
    | some ds =>
        if !st.groupElem.hasOwnerSvg then st
        else
          updateGroupTransform
            { st with
                currentImageOffset :=
                  ⟨(endEvent.clientX - ds.x) / st.currentImageScale,
                   (endEvent.clientY - ds.y) / st.currentImageScale⟩,
                dragStart := none }

/-- `groupDragStarted` (`annotations.ts`, lines 362-377). -/
def groupDragStarted (st : SvgDragState) (startEvent : MouseEvent) :
    SvgDragState :=
  if startEvent.button ≠ 0 then st
  else if !st.groupElem.hasOwnerSvg then st
  else
    let ds : Position :=
      ⟨startEvent.offsetX - st.currentImageOffset.x * st.currentImageScale,
        startEvent.offsetY - st.currentImageOffset.y * st.currentImageScale⟩
    { st with dragStart := some ds }

/-- A pan or zoom interaction event of the viewport controller. -/
inductive SvgOp where
  | zoom (factor : ℚ)
  | dragStarted (ev : MouseEvent)
  | dragOver (ev : MouseEvent)
  | dragEnd (ev : MouseEvent)
deriving Repr

def applySvgOp (st : SvgDragState) : SvgOp → SvgDragState
  | .zoom factor => performZoom st factor
  | .dragStarted ev => groupDragStarted st ev
  | .dragOver ev => groupDragOver st ev
  | .dragEnd ev => groupDragEnd st ev

/-- Apply a finite sequence of pan/zoom interactions. -/
def applySvgOps (st : SvgDragState) (ops : List SvgOp) : SvgDragState :=
  ops.foldl applySvgOp st

/-! ## Concrete scenes used by the theorems -/

/-- The single text chunk of the end-to-end scenario of spec §8. -/
def specExampleChunk : TextChunk :=
  { text := "Hi", font_variant := .Regular, character_spacing := 0,
    word_spacing := 0, language := none, alternate_text := none,
    actual_text := none, expansion := none }

/-- The annotation of the end-to-end scenario of spec §8:
`{left:10, bottom:20, font_size:12, leading:0, elements:[specExampleChunk]}`. -/
def specExampleAnnot : Annot :=
  { left := 10, bottom := 20, font_size := 12, leading := 0,
    elements := [specExampleChunk] }

/-- The page payload of the end-to-end scenario of spec §8. -/
def specExample : PageAnnotations :=
  { annotations := [specExampleAnnot], artifacts := [] }

/-! ## Theorems -/

set_option maxRecDepth 10000 in
/-- Claim C1 (status: code_bug).  Instantiating the spec's §8 end-to-end
example (one annotation at `(10, 20)` with one Regular `"Hi"` chunk, page
height 100 pt) and serializing the scene right back does NOT reproduce the
input: the output annotation keeps `left`/`bottom` but its elements list is
empty — every chunk is dropped, because `makeTSpanFromTextChunk` never sets
the tspan-level `font-size`/`line-height` styles that `serializeAnnot`
requires (and the output shape has no `font_size`/`leading` either).  The
second conjunct records that the input had one chunk. -/
theorem c1_roundtrip_loses_chunks :
    Serialize.serialize (realizePage 100 specExample) =
      ⟨[⟨10, 20, []⟩], []⟩ ∧
    specExample.annotations.map (fun a => a.elements.length) = [1] := by
  constructor
  · simp [Serialize.serialize, realizePage, realizeExistingAnnotations,
      initialPageGroup, getImageHeightPt, makeGroupFromAnnot,
      makeTSpanFromTextChunk, specExample, specExampleAnnot,
      specExampleChunk, tspanAttrs,
      DomNode.appendChild, DomNode.children, DomNode.childNodes,
      DomNode.nodeType, DomNode.namespaceURI, DomNode.localName,
      DomNode.classList, DomNode.styleOf, DomNode.hasOwnerSvg,
      DomNode.heightLen, DomNode.transforms, DomNode.getAttribute,
      SvgLength.valueInPt, serializeGroups, serializeAnnot,
      serializeChunks, positionFromTranslate, DomNode.getElementsByTagNameNS,
      DomNode.collectByTagNS, DomNode.collectByTagNSList,
      convertPtToNumber, convertNumberTo, SvgTransform.isTranslateType,
      SvgTransform.matrixE, SvgTransform.matrixF, roundHalfUp,
      artifactKindOf, jsNumToString, pointsValue, splitPtSuffix, SVG_NS]
    norm_num
  · simp [specExample, specExampleAnnot]

/-- An element that carries exactly one pure-translation transform but is
not attached to an SVG root (`ownerSVGElement === null`). -/
def detachedTranslated : DomNode :=
  DomNode.element
    { localName := "g", transforms := [SvgTransform.translate 3 4],
      hasOwnerSvg := false } []

/-- Claim C2, counterexample.  The claim's "if" direction fails: this
element's transform stack consists of exactly one pure translation, yet
`positionFromTranslate` returns `null`, because the element has no owning
SVG root. -/
theorem c2_detached_counterexample :
    detachedTranslated.transforms = [SvgTransform.translate 3 4] ∧
    positionFromTranslate detachedTranslated LengthType.number = none :=
  ⟨rfl, rfl⟩

/-- Claim C2, amended (status: corrected).  For an element attached to an
SVG root, `positionFromTranslate` succeeds if and only if the transform
stack is exactly one translation-type operation; in particular every
empty, multi-operation, rotation, skew or scale stack fails.  (Detached
elements always fail, which is what the counterexample exhibits.) -/
theorem c2_positionFromTranslate_iff (n : DomNode) (t : LengthType)
    (hAttached : n.hasOwnerSvg = true) :
    (∃ p, positionFromTranslate n t = some p) ↔
      ∃ tx ty, n.transforms = [SvgTransform.translate tx ty] := by
  unfold positionFromTranslate
  rw [hAttached]
  simp only [Bool.not_true, Bool.false_eq_true, if_false]
  constructor
  · rintro ⟨p, hp⟩
    rcases hts : n.transforms with _ | ⟨x0, _ | ⟨x1, rest⟩⟩
    · rw [hts] at hp; cases hp
    · rw [hts] at hp
      cases x0 with
      | translate tx ty => exact ⟨tx, ty, rfl⟩
      | scale _ _ => simp [SvgTransform.isTranslateType] at hp
      | rotate _ _ _ => simp [SvgTransform.isTranslateType] at hp
      | skewX _ => simp [SvgTransform.isTranslateType] at hp
      | skewY _ => simp [SvgTransform.isTranslateType] at hp
      | matrix _ _ _ _ _ _ => simp [SvgTransform.isTranslateType] at hp
    · rw [hts] at hp; cases hp
  · rintro ⟨tx, ty, hts⟩
    rw [hts]
    exact ⟨⟨convertNumberTo t tx, convertNumberTo t ty⟩,
      by simp [SvgTransform.isTranslateType, SvgTransform.matrixE,
        SvgTransform.matrixF]⟩

/-- An attached element with a single translation, for the C2 witness. -/
def attachedTranslated : DomNode :=
  DomNode.element
    { localName := "g", transforms := [SvgTransform.translate 5 7],
      hasOwnerSvg := true } []

/-- Witness for C2: at a concrete attached element with stack
`[translate(5,7)]`, the equivalence instantiates and the function
succeeds. -/
theorem c2_witness :
    ∃ p, positionFromTranslate attachedTranslated LengthType.pt = some p :=
  (c2_positionFromTranslate_iff attachedTranslated LengthType.pt rfl).mpr
    ⟨5, 7, rfl⟩

/-- An attached annotation group positioned at `(tx, ty)` (user units) by a
single translation, as `makeGroupFromAnnot` creates and `setGroupPos`
maintains. -/
def dragDemoGroup (tx ty : ℚ) : DomNode :=
  DomNode.element
    { localName := "g", classList := ["annotation"],
      transforms := [SvgTransform.translate tx ty], hasOwnerSvg := true } []

/-- Claim C3 (status: confirmed).  Grabbing a group positioned at
`(tx, ty)` with the primary button at pointer position `(gx, gy)` (the SVG
root at the viewport origin, so offset and client coordinates agree) and
releasing at `(gx + dx, gy + dy)` under view scale `s ≠ 0` moves the
group's model-space translation by exactly `(dx / s, dy / s)`; at
`s = 2` that is `(dx / 2, dy / 2)`. -/
theorem c3_drag_moves_by_delta_over_scale
    (tx ty s gx gy dx dy : ℚ) (hs : s ≠ 0) :
    (rectReleased
        (rectGrabbed ⟨none, s, dragDemoGroup tx ty⟩ ⟨0, gx, gy, gx, gy⟩)
        ⟨0, gx + dx, gy + dy, gx + dx, gy + dy⟩).annotationGroup.transforms =
      [SvgTransform.translate (tx + dx / s) (ty + dy / s)] := by
  simp only [rectGrabbed, rectReleased, setGroupPos, dragDemoGroup,
    positionFromTranslate, DomNode.hasOwnerSvg, DomNode.transforms,
    DomNode.withTransforms, SvgTransform.isTranslateType,
    SvgTransform.matrixE, SvgTransform.matrixF, convertNumberTo,
    Bool.not_true, Bool.false_eq_true, if_false]
  norm_num [DomNode.withTransforms, DomNode.transforms]
  constructor <;> (field_simp; ring)

/-- Witness for C3: with scale 2, translation `(1, 2)`, grab at the origin
and release after a pixel delta of `(10, 6)`, the group ends at
`(1 + 10/2, 2 + 6/2)`. -/
theorem c3_witness :
    (rectReleased
        (rectGrabbed ⟨none, 2, dragDemoGroup 1 2⟩ ⟨0, 0, 0, 0, 0⟩)
        ⟨0, 0 + 10, 0 + 6, 0 + 10, 0 + 6⟩).annotationGroup.transforms =
      [SvgTransform.translate (1 + 10 / 2) (2 + 6 / 2)] :=
  c3_drag_moves_by_delta_over_scale 1 2 2 0 0 10 6 (by norm_num)

/-- A list of characters ends in `'p','t'` exactly when `splitPtSuffix`
succeeds; this characterizes `pointsValue`'s `null` result. -/
theorem splitPtSuffix_eq_none_iff (cs : List Char) :
    splitPtSuffix cs = none ↔ ¬ ∃ body, cs = body ++ ['p', 't'] := by
  unfold splitPtSuffix
  rcases hrev : cs.reverse with _ | ⟨c1, _ | ⟨c2, bodyRev⟩⟩
  · have hcs : cs = [] := by
      have := congrArg List.reverse hrev
      simpa using this
    subst hcs
    simp
  · have hcs : cs = [c1] := by
      have := congrArg List.reverse hrev
      simpa using this
    subst hcs
    simp only [eq_self_iff_true, true_iff]
    rintro ⟨body, hbody⟩
    have := congrArg List.length hbody
    simp at this
  · have hcs : cs = bodyRev.reverse ++ [c2, c1] := by
      have := congrArg List.reverse hrev
      simpa using this
    show (if c1 = 't' ∧ c2 = 'p' then some bodyRev.reverse else none) = none ↔
      ¬ ∃ body, cs = body ++ ['p', 't']
    by_cases hpt : c1 = 't' ∧ c2 = 'p'
    · rw [if_pos hpt]
      simp only [reduceCtorEq, false_iff, not_not]
      exact ⟨bodyRev.reverse, by rw [hcs, hpt.1, hpt.2]⟩
    · rw [if_neg hpt]
      simp only [eq_self_iff_true, true_iff]
      rintro ⟨body, hbody⟩
      apply hpt
      have h2 : cs.reverse = 't' :: 'p' :: body.reverse := by
        rw [hbody]
        simp
      rw [hrev] at h2
      have h3 := List.cons.injEq .. |>.mp h2
      have h4 := List.cons.injEq .. |>.mp h3.2
      exact ⟨h3.1, h4.1⟩

/-- Claim C4, counterexample.  On `"xpt"` — a recognized `pt` unit suffix
with a non-numeric literal before it — `pointsValue` does not return the
absent result: it returns `NaN`, a non-definite number. -/
theorem c4_counterexample :
    pointsValue "xpt" = some JsNum.nan ∧
      some JsNum.nan ≠ (none : Option JsNum) :=
  ⟨rfl, by simp⟩

/-- Claim C4, amended (status: corrected).  `pointsValue` yields the absent
result (`null`) exactly when the string does not end in the `pt` unit
suffix; a `pt`-suffixed string always yields a number — the JavaScript
coercion of the literal before the suffix, which is `NaN` (not `null`)
when that literal is non-numeric.  The function never throws. -/
theorem c4_pointsValue_none_iff_no_pt_suffix (s : String) :
    pointsValue s = none ↔ ¬ ∃ body, s.data = body ++ ['p', 't'] := by
  unfold pointsValue
  rcases h : splitPtSuffix s.data with _ | body
  · simpa using (splitPtSuffix_eq_none_iff s.data).mp h
  · simp only [reduceCtorEq, false_iff, not_not]
    by_contra hno
    have := (splitPtSuffix_eq_none_iff s.data).mpr (by simpa using hno)
    rw [h] at this
    cases this

/-- Whether a fetch outcome is a success response (status 200). -/
def isSuccessStatus : FetchOutcome → Bool
  | .response status _ => status == 200
  | .transportError _ => false

/-- Claim C7 (status: confirmed).  For every save attempt: when the
response status is not 200 or the transport fails, `doSave` alerts a
"cannot save: …" failure message and never alerts "saved!"; and "saved!"
is alerted only when the response status is 200. -/
theorem c7_save_failure_not_marked_saved (env : SaveEnv) :
    (isSuccessStatus env.outcome = false →
      (∃ m ∈ doSave env, ∃ details, m = "cannot save: " ++ details) ∧
      "saved!" ∉ doSave env) ∧
    ("saved!" ∈ doSave env →
      ∃ body, env.outcome = FetchOutcome.response 200 body) := by
  have hne : ∀ d : String, ¬ ("saved!" = "cannot save: " ++ d) := by
    intro d h
    have hlen := congrArg String.length h
    rw [String.length_append] at hlen
    have h6 : ("saved!" : String).length = 6 := rfl
    have h13 : ("cannot save: " : String).length = 13 := rfl
    rw [h6, h13] at hlen
    omega
  obtain ⟨pg, meta, outcome⟩ := env
  cases pg with
  | none =>
      refine ⟨fun _ => ⟨⟨"cannot save: page group not found", ?_,
        "page group not found", rfl⟩, ?_⟩, fun hmem => ?_⟩
      · simp [doSave]
      · simp only [doSave, List.mem_singleton]
        exact hne "page group not found"
      · simp only [doSave, List.mem_singleton] at hmem
        exact absurd hmem (hne "page group not found")
  | some g =>
    cases meta with
    | none =>
        refine ⟨fun _ => ⟨⟨"cannot save: page number meta element not found",
          ?_, "page number meta element not found", rfl⟩, ?_⟩,
          fun hmem => ?_⟩
        · simp [doSave]
        · simp only [doSave, List.mem_singleton]
          exact hne "page number meta element not found"
        · simp only [doSave, List.mem_singleton] at hmem
          exact absurd hmem (hne "page number meta element not found")
    | some m =>
      rcases outcome with ⟨status, body⟩ | msg
      · by_cases h200 : status = 200
        · subst h200
          refine ⟨fun hfail => ?_, fun _ => ⟨body, rfl⟩⟩
          simp [isSuccessStatus] at hfail
        · refine ⟨fun _ => ⟨⟨"cannot save: [object Promise]", ?_,
            "[object Promise]", rfl⟩, ?_⟩, fun hmem => ?_⟩
          · simp [doSave, h200]
          · simp only [doSave]
            rw [if_pos h200]
            simp only [List.mem_singleton]
            exact hne "[object Promise]"
          · simp only [doSave] at hmem
            rw [if_pos h200] at hmem
            simp only [List.mem_singleton] at hmem
            exact absurd hmem (hne "[object Promise]")
      · refine ⟨fun _ => ⟨⟨"cannot save: " ++ msg, ?_, msg, rfl⟩, ?_⟩,
          fun hmem => ?_⟩
        · simp [doSave]
        · simp only [doSave, List.mem_singleton]
          exact hne msg
        · simp only [doSave, List.mem_singleton] at hmem
          exact absurd hmem (hne msg)

/-- Witness for C7: with the document elements present and a failing
transport, a failure alert is shown and "saved!" is not. -/
theorem c7_witness :
    (∃ m ∈ doSave ⟨some (initialPageGroup 100), some "0",
        FetchOutcome.transportError "network down"⟩,
      ∃ details, m = "cannot save: " ++ details) ∧
    "saved!" ∉ doSave ⟨some (initialPageGroup 100), some "0",
        FetchOutcome.transportError "network down"⟩ :=
  (c7_save_failure_not_marked_saved
    ⟨some (initialPageGroup 100), some "0",
      FetchOutcome.transportError "network down"⟩).1 rfl

/-- A chunk whose persisted variant is `Bold`. -/
def boldChunk : TextChunk :=
  { text := "bold text", font_variant := .Bold, character_spacing := 0,
    word_spacing := 0, language := none, alternate_text := none,
    actual_text := none, expansion := none }

/-- Claim C8 (status: code_bug).  The scene-to-model direction
(`variantOfFlags`, the serializer's conditional) is exactly the claimed
total mapping over the four `(bold, italic)` pairs — but the model-to-scene
direction does not apply the mapping at all: `makeTSpanFromTextChunk`
ignores `font_variant` and writes neither `font-weight` nor `font-style`,
so a `Bold` chunk's tspan reads back through the serializer's flags as
`Regular`. -/
theorem c8_variant_mapping_not_bidirectional :
    (variantOfFlags false false = FontVariant.Regular ∧
     variantOfFlags true false = FontVariant.Bold ∧
     variantOfFlags false true = FontVariant.Italic ∧
     variantOfFlags true true = FontVariant.BoldItalic) ∧
    boldChunk.font_variant = FontVariant.Bold ∧
    (makeTSpanFromTextChunk boldChunk).styleOf.fontWeight = "" ∧
    (makeTSpanFromTextChunk boldChunk).styleOf.fontStyle = "" ∧
    variantOfFlags
        ((makeTSpanFromTextChunk boldChunk).styleOf.fontWeight == "bold")
        ((makeTSpanFromTextChunk boldChunk).styleOf.fontStyle == "italic") =
      FontVariant.Regular :=
  ⟨⟨rfl, rfl, rfl, rfl⟩, rfl, rfl, rfl, rfl⟩

/-- Claim C9 (status: confirmed).  After any finite sequence of pan and
zoom operations from any view state, a single `resetView` leaves the view
at scale 1 and offset `(0, 0)`, unconditionally. -/
theorem c9_resetView_restores_defaults (ops : List SvgOp) (st : SvgDragState) :
    (resetView (applySvgOps st ops)).currentImageScale = 1 ∧
    (resetView (applySvgOps st ops)).currentImageOffset = ⟨0, 0⟩ := by
  generalize applySvgOps st ops = st1
  unfold resetView updateGroupTransform
  split
  · exact ⟨rfl, rfl⟩
  · exact ⟨rfl, rfl⟩

/-- An annotation group whose `text` element contains no tspans at all. -/
def emptyRunsGroup : DomNode :=
  DomNode.element
    { localName := "g", classList := ["annotation"],
      transforms := [SvgTransform.translate 0 0], hasOwnerSvg := true }
    [DomNode.element { localName := "text", hasOwnerSvg := true } []]

/-- A page whose only annotation group has a text element with zero runs. -/
def emptyRunsPage : DomNode :=
  DomNode.element { localName := "g", hasOwnerSvg := true }
    [DomNode.element
      { localName := "image", height := ⟨LengthType.pt, 100⟩,
        hasOwnerSvg := true } [],
     emptyRunsGroup]

set_option maxRecDepth 10000 in
/-- Claim C6, counterexample.  A group containing no text runs (a `text`
element with zero tspans) is NOT dropped: `serialize` emits it as a
degenerate annotation with an empty elements list. -/
theorem c6_counterexample :
    (Serialize.serialize emptyRunsPage).annotations =
      [{ left := 0, bottom := 100, elements := [] }] := by
  simp [Serialize.serialize, emptyRunsPage, emptyRunsGroup, getImageHeightPt,
    DomNode.children, DomNode.childNodes, DomNode.nodeType,
    DomNode.namespaceURI, DomNode.localName, DomNode.classList,
    DomNode.styleOf, DomNode.hasOwnerSvg, DomNode.heightLen,
    DomNode.transforms, SvgLength.valueInPt, serializeGroups,
    serializeAnnot, serializeChunks, positionFromTranslate,
    DomNode.getElementsByTagNameNS, DomNode.collectByTagNS,
    DomNode.collectByTagNSList, convertNumberTo,
    SvgTransform.isTranslateType, SvgTransform.matrixE,
    SvgTransform.matrixF, roundHalfUp, artifactKindOf, SVG_NS]
  norm_num

/-- Claim C6, amended (status: corrected).  What `serializeAnnot` does drop
entirely is a group with no `text` descendant at all (as well as one with
no usable transform); a group whose text element merely yields zero usable
runs is emitted with an empty elements list, as the counterexample
shows. -/
theorem c6_no_text_element_dropped (g : DomNode) (h : ℚ)
    (htext : g.getElementsByTagNameNS SVG_NS "text" = []) :
    serializeAnnot g h = none := by
  unfold serializeAnnot
  split
  · rfl
  · rcases hp : positionFromTranslate g LengthType.pt with _ | pos
    · rfl
    · rw [htext]

/-- A detached-from-nothing group with a translation but no text element,
for the C6 witness. -/
def textlessGroup : DomNode :=
  DomNode.element
    { localName := "g", classList := ["annotation"],
      transforms := [SvgTransform.translate 0 0], hasOwnerSvg := true } []

/-- Witness for C6: the concrete textless group is dropped. -/
theorem c6_witness : serializeAnnot textlessGroup 100 = none :=
  c6_no_text_element_dropped textlessGroup 100 rfl

/-- `Math.round` of an integer is itself. -/
theorem roundHalfUp_intCast (k : ℤ) : roundHalfUp (k : ℚ) = k := by
  unfold roundHalfUp
  rw [add_comm, Int.floor_add_int]
  norm_num

/-- `Math.round` is idempotent (`NaN`/infinities pass through, finite
results are integers). -/
theorem jsRound_idem (n : JsNum) : jsRound (jsRound n) = jsRound n := by
  cases n with
  | num q =>
      simp only [jsRound]
      congr 1
      rw [add_comm, Int.floor_add_int]
      norm_num
  | nan => rfl
  | inf => rfl
  | negInf => rfl

/-- A finite result of `Math.round` is an integer. -/
theorem jsRound_num_den_one (n : JsNum) (q : ℚ)
    (h : jsRound n = JsNum.num q) : q.den = 1 := by
  cases n with
  | num q0 =>
      simp only [jsRound, JsNum.num.injEq] at h
      rw [← h]
      exact Rat.den_intCast _
  | nan => simp [jsRound] at h
  | inf => simp [jsRound] at h
  | negInf => simp [jsRound] at h

/-- `Math.round` of a finite rational is an integer. -/
theorem roundHalfUp_den (q : ℚ) : (roundHalfUp q).den = 1 :=
  Rat.den_intCast _

/-- The numeric fields of a serialized chunk are all obtained by
`Math.round`, and every finite one among them is an integer. -/
def SerTextChunk.roundedIntegral (c : SerTextChunk) : Prop :=
  (∃ v, c.font_size = jsRound v) ∧
  (∃ v, c.character_spacing = jsRound v) ∧
  (∃ v, c.word_spacing = jsRound v) ∧
  (∃ v, c.leading = jsRound v) ∧
  (∀ q : ℚ,
    c.font_size = JsNum.num q ∨ c.character_spacing = JsNum.num q ∨
      c.word_spacing = JsNum.num q ∨ c.leading = JsNum.num q → q.den = 1)

/-- Every chunk emitted by the serializer's run loop has rounded numeric
fields. -/
theorem serializeChunks_rounded (runs : List DomNode)
    (l : List SerTextChunk) (h : serializeChunks runs = some l) :
    ∀ c ∈ l, c.roundedIntegral := by
  induction runs generalizing l with
  | nil =>
      unfold serializeChunks at h
      cases h
      intro c hc
      exact absurd hc (List.not_mem_nil c)
  | cons rawChild rest ih =>
      unfold serializeChunks at h
      split at h
      all_goals try exact ih l h
      split at h
      all_goals try exact ih l h
      split at h
      all_goals try exact ih l h
      split at h
      all_goals try exact Option.noConfusion h
      split at h
      all_goals try exact Option.noConfusion h
      split at h
      all_goals try exact Option.noConfusion h
      rw [Option.map_eq_some'] at h
      obtain ⟨tail, htail, hl⟩ := h
      subst hl
      intro c hc
      rcases List.mem_cons.mp hc with hc | hc
      · subst hc
        refine ⟨⟨_, rfl⟩, ⟨_, rfl⟩, ⟨_, rfl⟩, ⟨_, rfl⟩, ?_⟩
        rintro q (hq | hq | hq | hq) <;>
          exact jsRound_num_den_one _ _ hq
      · exact ih tail htail c hc

/-- Every annotation object the serializer returns has an integral
`left`/`bottom` and rounded chunk fields. -/
theorem serializeAnnot_rounded (g : DomNode) (hpt : ℚ) (a : SerAnnot)
    (ha : serializeAnnot g hpt = some a) :
    a.left.den = 1 ∧ a.bottom.den = 1 ∧
      ∀ c ∈ a.elements, c.roundedIntegral := by
  unfold serializeAnnot at ha
  split at ha
  · exact Option.noConfusion ha
  · split at ha
    · exact Option.noConfusion ha
    · split at ha
      · exact Option.noConfusion ha
      · rw [Option.map_eq_some'] at ha
        obtain ⟨elems, helems, hA⟩ := ha
        subst hA
        exact ⟨roundHalfUp_den _, roundHalfUp_den _,
          serializeChunks_rounded _ _ helems⟩

/-- Every annotation in the output of the child loop — top-level or inside
an artifact — comes from a successful `serializeAnnot`. -/
theorem serializeGroups_mem (hpt : Option ℚ) (kids : List DomNode) :
    (∀ a ∈ (serializeGroups hpt kids).annotations,
       ∃ g hq, serializeAnnot g hq = some a) ∧
    (∀ art ∈ (serializeGroups hpt kids).artifacts,
       ∃ g hq, serializeAnnot g hq = some art.annot) := by
  induction kids with
  | nil =>
      constructor
      · intro a ha; exact absurd ha (List.not_mem_nil a)
      · intro art hart; exact absurd hart (List.not_mem_nil art)
  | cons child rest ih =>
      unfold serializeGroups
      split
      · exact ih
      · split
        · split
          · split
            · exact ih
            · split
              · exact ih
              · rename_i hAnn
                constructor
                · intro a ha
                  rcases List.mem_cons.mp ha with ha | ha
                  · subst ha
                    exact ⟨child, _, hAnn⟩
                  · exact ih.1 a ha
                · exact ih.2
          · split
            · split
              · exact ih
              · split
                · exact ih
                · split
                  · exact ih
                  · rename_i hAnn
                    constructor
                    · exact ih.1
                    · intro art hart
                      rcases List.mem_cons.mp hart with hart | hart
                      · subst hart
                        exact ⟨child, _, hAnn⟩
                      · exact ih.2 art hart
            · exact ih
        · exact ih

/-- Claim C5, amended (status: corrected).  Every numeric field of every
annotation and artifact emitted by `Serialize.serialize` is obtained by
`Math.round` at the serialization boundary; `left` and `bottom` are always
integers, and each of the four chunk fields is an integer whenever it is a
finite number.  (The claim's unconditional "is an integer" fails: a
`pt`-suffixed non-numeric style parses to `NaN`, which survives rounding —
see the counterexample.) -/
theorem c5_fields_are_rounded (pageGroup : DomNode) (a : SerAnnot)
    (ha : a ∈ (Serialize.serialize pageGroup).annotations ∨
          ∃ art ∈ (Serialize.serialize pageGroup).artifacts, art.annot = a) :
    a.left.den = 1 ∧ a.bottom.den = 1 ∧
      ∀ c ∈ a.elements, c.roundedIntegral := by
  have hmem := serializeGroups_mem (getImageHeightPt pageGroup)
    pageGroup.children
  rcases ha with ha | ⟨art, hart, hart_eq⟩
  · obtain ⟨g, hq, hok⟩ := hmem.1 a ha
    exact serializeAnnot_rounded g hq a hok
  · obtain ⟨g, hq, hok⟩ := hmem.2 art hart
    rw [hart_eq] at hok
    exact serializeAnnot_rounded g hq a hok

set_option maxRecDepth 10000 in
/-- Witness for C5: the rounding theorem instantiated at the concrete
empty-runs page, whose single output annotation is `⟨0, 100, []⟩`. -/
theorem c5_witness :
    (⟨0, 100, []⟩ : SerAnnot).left.den = 1 ∧
    (⟨0, 100, []⟩ : SerAnnot).bottom.den = 1 ∧
    ∀ c ∈ (⟨0, 100, []⟩ : SerAnnot).elements, c.roundedIntegral :=
  c5_fields_are_rounded emptyRunsPage ⟨0, 100, []⟩ (Or.inl (by
    have hser : (Serialize.serialize emptyRunsPage).annotations =
        [{ left := 0, bottom := 100, elements := [] }] := by
      simp [Serialize.serialize, emptyRunsPage, emptyRunsGroup,
        getImageHeightPt, DomNode.children, DomNode.childNodes,
        DomNode.nodeType, DomNode.namespaceURI, DomNode.localName,
        DomNode.classList, DomNode.styleOf, DomNode.hasOwnerSvg,
        DomNode.heightLen, DomNode.transforms, SvgLength.valueInPt,
        serializeGroups, serializeAnnot, serializeChunks,
        positionFromTranslate, DomNode.getElementsByTagNameNS,
        DomNode.collectByTagNS, DomNode.collectByTagNSList, convertNumberTo,
        SvgTransform.isTranslateType, SvgTransform.matrixE,
        SvgTransform.matrixF, roundHalfUp, artifactKindOf, SVG_NS]
      norm_num
    rw [hser]
    exact List.mem_singleton.mpr rfl))

/-- A tspan whose letter-spacing style is `pt`-suffixed but non-numeric. -/
def nanSpacingTspan : DomNode :=
  DomNode.element
    { localName := "tspan",
      style := { fontSize := "12pt", letterSpacing := "zzpt",
                 wordSpacing := "0pt", lineHeight := "12pt" },
      hasOwnerSvg := true }
    [DomNode.text "x"]

/-- A page whose single annotation carries `nanSpacingTspan`. -/
def nanSpacingPage : DomNode :=
  DomNode.element { localName := "g", hasOwnerSvg := true }
    [DomNode.element
      { localName := "image", height := ⟨LengthType.pt, 100⟩,
        hasOwnerSvg := true } [],
     DomNode.element
      { localName := "g", classList := ["annotation"],
        transforms := [SvgTransform.translate 0 0], hasOwnerSvg := true }
      [DomNode.element { localName := "text", hasOwnerSvg := true }
        [nanSpacingTspan]]]

set_option maxRecDepth 10000 in
/-- Claim C5, counterexample.  A run whose letter-spacing is `"zzpt"`
passes the serializer's null-checks (the parse yields `NaN`, not `null`),
and `Math.round(NaN)` is `NaN` — so `serialize` emits a `character_spacing`
that is not an integer. -/
theorem c5_counterexample :
    (Serialize.serialize nanSpacingPage).annotations.map
        (fun a => a.elements.map (fun c => c.character_spacing)) =
      [[JsNum.nan]] ∧
    JsNum.nan.isInt = false := by
  constructor
  · have h1 : pointsValue "12pt" = some (JsNum.num 12) := rfl
    have h2 : pointsValue "zzpt" = some JsNum.nan := rfl
    have h3 : pointsValue "0pt" = some (JsNum.num 0) := rfl
    simp [Serialize.serialize, nanSpacingPage, nanSpacingTspan,
      getImageHeightPt, DomNode.children, DomNode.childNodes,
      DomNode.nodeType, DomNode.namespaceURI, DomNode.localName,
      DomNode.classList, DomNode.styleOf, DomNode.hasOwnerSvg,
      DomNode.heightLen, DomNode.transforms, DomNode.getAttribute,
      DomNode.textContentOpt, SvgLength.valueInPt, serializeGroups,
      serializeAnnot, serializeChunks, positionFromTranslate,
      DomNode.getElementsByTagNameNS, DomNode.collectByTagNS,
      DomNode.collectByTagNSList, convertNumberTo,
      SvgTransform.isTranslateType, SvgTransform.matrixE,
      SvgTransform.matrixF, roundHalfUp, artifactKindOf, SVG_NS,
      h1, h2, h3, jsRound]
  · rfl

/-- A tspan with an unparsable font-size unit (`px`) and two child text
nodes: malformed children AND a bad unit at once. -/
def malformedBadUnitRun : DomNode :=
  DomNode.element
    { localName := "tspan",
      style := { fontSize := "12px", letterSpacing := "0pt",
                 wordSpacing := "0pt", lineHeight := "12pt" },
      hasOwnerSvg := true }
    [DomNode.text "a", DomNode.text "b"]

/-- A well-formed run. -/
def okRun : DomNode :=
  DomNode.element
    { localName := "tspan",
      style := { fontSize := "12pt", letterSpacing := "0pt",
                 wordSpacing := "0pt", lineHeight := "12pt" },
      hasOwnerSvg := true }
    [DomNode.text "ok"]

/-- A group whose first run is `malformedBadUnitRun` and whose second is
fine. -/
def mixedRunsGroup : DomNode :=
  DomNode.element
    { localName := "g", classList := ["annotation"],
      transforms := [SvgTransform.translate 0 0], hasOwnerSvg := true }
    [DomNode.element { localName := "text", hasOwnerSvg := true }
      [malformedBadUnitRun, okRun]]

set_option maxRecDepth 10000 in
/-- Claim C10, counterexample.  A tspan with two child nodes does NOT make
`serializeAnnot` return `null` when its unit parse already failed: the
unit checks run first, so such a run is skipped individually and the group
is still serialized. -/
theorem c10_counterexample :
    pointsValue malformedBadUnitRun.styleOf.fontSize = none ∧
    malformedBadUnitRun.childNodes.length = 2 ∧
    (serializeAnnot mixedRunsGroup 100).isSome = true := by
  refine ⟨rfl, rfl, ?_⟩
  have h1 : pointsValue "12pt" = some (JsNum.num 12) := rfl
  have h2 : pointsValue "12px" = none := rfl
  have h3 : pointsValue "0pt" = some (JsNum.num 0) := rfl
  simp [mixedRunsGroup, malformedBadUnitRun, okRun, DomNode.children,
    DomNode.childNodes, DomNode.nodeType, DomNode.namespaceURI,
    DomNode.localName, DomNode.classList, DomNode.styleOf,
    DomNode.hasOwnerSvg, DomNode.transforms, DomNode.getAttribute,
    DomNode.textContentOpt, serializeAnnot, serializeChunks,
    positionFromTranslate, DomNode.getElementsByTagNameNS,
    DomNode.collectByTagNS, DomNode.collectByTagNSList, convertNumberTo,
    SvgTransform.isTranslateType, SvgTransform.matrixE,
    SvgTransform.matrixF, SVG_NS, h1, h2, h3]

/-- A run whose four length styles all parse but whose child-node list is
not a single text node makes the whole run loop abort with `null`. -/
theorem serializeChunks_malformed_none (runs : List DomNode) (t : DomNode)
    (hmem : t ∈ runs) (hns : t.namespaceURI = some SVG_NS)
    (hname : t.localName = "tspan")
    (h1 : (pointsValue t.styleOf.fontSize).isSome = true)
    (h2 : (pointsValue t.styleOf.letterSpacing).isSome = true)
    (h3 : (pointsValue t.styleOf.wordSpacing).isSome = true)
    (h4 : (pointsValue t.styleOf.lineHeight).isSome = true)
    (hbad : ∀ s, t.childNodes ≠ [DomNode.text s]) :
    serializeChunks runs = none := by
  induction runs with
  | nil => cases hmem
  | cons rawChild rest ih =>
      rcases List.mem_cons.mp hmem with hhd | htl
      · subst hhd
        unfold serializeChunks
        rw [if_neg (by rw [hns]; simp), if_neg (by rw [hname]; simp)]
        obtain ⟨fs, hfs⟩ := Option.isSome_iff_exists.mp h1
        obtain ⟨cs, hcs⟩ := Option.isSome_iff_exists.mp h2
        obtain ⟨ws, hws⟩ := Option.isSome_iff_exists.mp h3
        obtain ⟨lh, hlh⟩ := Option.isSome_iff_exists.mp h4
        rw [hfs, hcs, hws, hlh]
        cases hcn : t.childNodes with
        | nil => rfl
        | cons only rest2 =>
          cases rest2 with
          | cons k2 ks => rfl
          | nil =>
            cases only with
            | element d kids => rfl
            | comment str => rfl
            | text str => exact absurd hcn (hbad str)
      · unfold serializeChunks
        split
        all_goals try exact ih htl
        split
        all_goals try exact ih htl
        split
        all_goals try exact ih htl
        split
        all_goals try rfl
        split
        all_goals try rfl
        split
        all_goals try rfl
        rw [ih htl]
        rfl

/-- Claim C10, amended (status: corrected).  If some tspan run of the
group's first text element has all four length styles parsable AND a
child-node list that is not exactly one text node, `serializeAnnot`
returns `null` and the whole group is omitted; a run whose unit parse
fails never reaches the child-node check and is skipped individually (the
counterexample), so the claim holds only for runs that pass the unit
parses. -/
theorem c10_malformed_run_discards_group (g : DomNode) (hpt : ℚ)
    (tc : DomNode) (restTexts : List DomNode)
    (htc : g.getElementsByTagNameNS SVG_NS "text" = tc :: restTexts)
    (t : DomNode) (hmem : t ∈ tc.children)
    (hns : t.namespaceURI = some SVG_NS) (hname : t.localName = "tspan")
    (h1 : (pointsValue t.styleOf.fontSize).isSome = true)
    (h2 : (pointsValue t.styleOf.letterSpacing).isSome = true)
    (h3 : (pointsValue t.styleOf.wordSpacing).isSome = true)
    (h4 : (pointsValue t.styleOf.lineHeight).isSome = true)
    (hbad : ∀ s, t.childNodes ≠ [DomNode.text s]) :
    serializeAnnot g hpt = none := by
  unfold serializeAnnot
  rw [htc]
  split
  · rfl
  · split
    · rfl
    · simp only
        [serializeChunks_malformed_none tc.children t hmem hns hname
          h1 h2 h3 h4 hbad,
        Option.map_none']

/-- The malformed-but-parsable run of the C10 witness group: all four
lengths parse, two child text nodes. -/
def doubleTextRun : DomNode :=
  DomNode.element
    { localName := "tspan",
      style := { fontSize := "12pt", letterSpacing := "0pt",
                 wordSpacing := "0pt", lineHeight := "12pt" },
      hasOwnerSvg := true }
    [DomNode.text "a", DomNode.text "b"]

/-- The text element of the C10 witness group. -/
def doubleTextElem : DomNode :=
  DomNode.element { localName := "text", hasOwnerSvg := true }
    [doubleTextRun]

/-- A group whose only run parses all four lengths but has two child text
nodes. -/
def doubleTextGroup : DomNode :=
  DomNode.element
    { localName := "g", classList := ["annotation"],
      transforms := [SvgTransform.translate 0 0], hasOwnerSvg := true }
    [doubleTextElem]

/-- Witness for C10: the concrete group with a style-parsable but
structurally malformed run is discarded whole. -/
theorem c10_witness : serializeAnnot doubleTextGroup 100 = none :=
  c10_malformed_run_discards_group doubleTextGroup 100 doubleTextElem [] rfl
    doubleTextRun
    (by simp [doubleTextElem, doubleTextRun, DomNode.children,
      DomNode.childNodes, DomNode.nodeType])
    rfl rfl rfl rfl rfl rfl
    (by
      intro str hcontra
      have hlen := congrArg List.length hcontra
      simp [doubleTextRun, DomNode.childNodes] at hlen)

end Pdfmcr

